import Mathlib

/-!
Verification development for `UE4Workspace/object/socket.py`: socket
copy/paste between the tool's scene graph and the engine's
`SocketCopyPasteBuffer` clipboard text, plus the attach-object operator.

Modelling conventions:
* Python strings are modelled by `String` / `List Char`; `str.strip`,
  `str.split`, `str.startswith`, substring tests and `str.splitlines`
  (for `\n`-separated text) are given as explicit char-list functions.
* Python floats are modelled by exact arithmetic: `ℚ` for the values the
  parser manipulates and `ℝ` for the angle conversions that involve π
  (`math.degrees` / `math.radians`).  The float literal `0.01` is
  modelled by the exact rational `1/100`.
* Fallible Python code (statements that can raise `ValueError`,
  `IndexError` or `KeyError`) is modelled in `Option`: `none` stands for
  an uncaught exception.
* Python dicts keyed by strings are modelled by association lists with
  insert-or-replace (`upsert`), which preserves Python's insertion-order
  and last-write-wins semantics; lookups model `d[k]` (faulting via
  `Option` when the key is absent).
-/

/-! ### Char-list text primitives (models of the Python `str` methods used) -/

/-- Char list of a substring pattern occurring in the clipboard pre-check
(`'Begin Object Class=/Script/Engine.SkeletalMeshSocket' in clipboard`,
socket.py line 217). -/
def beginMarker : List Char := "Begin Object Class=/Script/Engine.SkeletalMeshSocket".toList

/-- The `'End Object'` marker (socket.py lines 217 and 227). -/
def endMarker : List Char := "End Object".toList

/-- The prefix a trimmed line must start with to open a socket block
(socket.py line 221). -/
def beginNameMarker : List Char :=
  "Begin Object Class=/Script/Engine.SkeletalMeshSocket Name=\"SkeletalMeshSocket_".toList

/-- Python `pat in s` (substring containment) on char lists. -/
def containsSub (pat : List Char) : List Char → Bool
  | [] => pat.isEmpty
  | c :: cs => pat.isPrefixOf (c :: cs) || containsSub pat cs

/-- Python `str.strip()` (no argument): drop whitespace from both ends. -/
def trimL (cs : List Char) : List Char :=
  ((cs.dropWhile Char.isWhitespace).reverse.dropWhile Char.isWhitespace).reverse

/-- Python `str.strip(chars)`: drop any of the given chars from both ends.
Used for `value.strip('"').strip('()')` (socket.py line 231). -/
def stripChars (strip : List Char) (cs : List Char) : List Char :=
  ((cs.dropWhile (strip.contains ·)).reverse.dropWhile (strip.contains ·)).reverse

/-- Python `s.split('=', 1)` followed by unpacking into two variables:
`none` models the `ValueError` raised when `s` has no `'='`. -/
def splitFirstEq : List Char → Option (List Char × List Char)
  | [] => none
  | c :: cs =>
    if c = '=' then some ([], cs)
    else (splitFirstEq cs).map (fun p => (c :: p.1, p.2))

/-- Value of a digit run (helper for the float model). -/
def natOfDigits (cs : List Char) : ℕ :=
  cs.foldl (fun n c => 10 * n + (c.toNat - 48)) 0

/-- Python `float(s)` on plain decimal notation
(`[+-]digits`, `[+-]digits.digits`, `[+-].digits`, `[+-]digits.`),
with surrounding whitespace allowed as `float` does; `none` models the
`ValueError` on anything else.  (Exponent notation, `inf`/`nan` are not
needed for the engine clipboard format and are not modelled.) -/
def parseQ (cs0 : List Char) : Option ℚ :=
  let cs1 := trimL cs0
  let signAndRest : Bool × List Char :=
    match cs1 with
    | '-' :: r => (true, r)
    | '+' :: r => (false, r)
    | r => (false, r)
  let value : Option ℚ :=
    match signAndRest.2.splitOn '.' with
    | [i] =>
      if i ≠ [] && i.all Char.isDigit then some ((natOfDigits i : ℕ) : ℚ) else none
    | [i, f] =>
      if (i ≠ [] || f ≠ []) && i.all Char.isDigit && f.all Char.isDigit then
        some (((natOfDigits i : ℕ) : ℚ) + ((natOfDigits f : ℕ) : ℚ) / (10 : ℚ) ^ f.length)
      else none
    | _ => none
  value.map (fun v => if signAndRest.1 then -v else v)

/-! ### String-keyed dicts of floats (the compound-field dictionaries) -/

/-- Insert-or-replace in an association list: Python `d[k] = v` on a dict.
Keeps insertion order and replaces in place, like a Python dict. -/
def upsert (k : String) (v : ℚ) : List (String × ℚ) → List (String × ℚ)
  | [] => [(k, v)]
  | e :: rest => if e.1 = k then (k, v) :: rest else e :: upsert k v rest

/-- Dict lookup `d[k]` returning `none` when the key is absent
(the Python code would raise `KeyError`). -/
def lookupQ : List (String × ℚ) → String → Option ℚ
  | [], _ => none
  | e :: rest, k => if e.1 = k then some e.2 else lookupQ rest k

/-- Python `d[k] *= -1`: fails (`KeyError`) when `k` is absent. -/
def negKey (k : String) (d : List (String × ℚ)) : Option (List (String × ℚ)) :=
  match lookupQ d k with
  | none => none
  | some v => some (upsert k (-v) d)

/-- `SocketObject.update_transform`'s `serialize` (socket.py line 186):
split a compound value such as `X=1.0,Y=2.0,Z=3.0` on `','`, strip each
piece, split it at its first `'='` and convert the value with `float`,
building a dict.  `none` models the `ValueError` on a piece with no `'='`
or a non-numeric value. -/
def serializeCompound (s : String) : Option (List (String × ℚ)) :=
  (s.toList.splitOn ',').foldlM
    (fun d piece =>
      match splitFirstEq (trimL piece) with
      | none => none
      | some kv =>
        match parseQ kv.2 with
        | none => none
        | some q => some (upsert kv.1.asString q d))
    []

/-! ### `SocketObject` (socket.py lines 163-194)

`_temp_dict` is a CLASS-level dict literal; `__init__` runs
`self._temp_dict.update(bone)`, which mutates that shared class dict in
place.  The embedding therefore threads the dict state explicitly
through every construction: `TempDict` is the current state of
`SocketObject._temp_dict`, and `initTempDict` is its state when the
module is loaded (the literal at lines 164-170). -/

/-- State of the class-level `SocketObject._temp_dict`.  Keys other than
the five below can be added by `update` but are never read back, so they
are not tracked. -/
structure TempDict where
  socketName : String
  boneName : String
  relLocation : String
  relRotation : String
  relScale : String
deriving DecidableEq, Repr

/-- The `_temp_dict` literal (socket.py lines 164-170): the documented
default field values. -/
def initTempDict : TempDict :=
  { socketName := "Socket"
    boneName := "Bone"
    relLocation := "X=0.0,Y=0.0,Z=0.0"
    relRotation := "Pitch=0.0,Yaw=0.0,Roll=0.0"
    relScale := "X=1.0,Y=1.0,Z=1.0" }

/-- One key/value assignment of `_temp_dict.update(bone)`. -/
def TempDict.updateKV (t : TempDict) (k v : String) : TempDict :=
  if k = "SocketName" then { t with socketName := v }
  else if k = "BoneName" then { t with boneName := v }
  else if k = "RelativeLocation" then { t with relLocation := v }
  else if k = "RelativeRotation" then { t with relRotation := v }
  else if k = "RelativeScale" then { t with relScale := v }
  else t

/-- The parsed per-socket record: the instance attributes a constructed
`SocketObject` carries (name and bone from `_temp_dict`, the three
compound dicts after `update_transform`'s negations). -/
structure SocketRecord where
  socketName : String
  boneName : String
  relLocation : List (String × ℚ)
  relRotation : List (String × ℚ)
  relScale : List (String × ℚ)
deriving DecidableEq, Repr

/-- `SocketObject.update_transform` plus the `setattr` loop of
`__init__` (socket.py lines 178-194): parse the three compound strings
of the current `_temp_dict`, then negate `RelativeLocation['Y']`,
`RelativeRotation['Pitch']` and `RelativeRotation['Yaw']` in place. -/
def mkRecord (t : TempDict) : Option SocketRecord :=
  match serializeCompound t.relLocation, serializeCompound t.relRotation,
      serializeCompound t.relScale with
  | some loc, some rot, some sca =>
    match negKey "Y" loc, negKey "Pitch" rot with
    | some loc2, some rot2 =>
      match negKey "Yaw" rot2 with
      | some rot3 => some ⟨t.socketName, t.boneName, loc2, rot3, sca⟩
      | none => none
    | _, _ => none
  | _, _, _ => none

/-- `SocketObject(**socket_dict)` (socket.py lines 178-182): update the
shared class dict with the block's key/value pairs, then build the
record from the updated dict.  Returns the new shared-dict state. -/
def socketObjectInit (t : TempDict) (kvs : List (String × String)) :
    Option (TempDict × SocketRecord) :=
  let t1 := kvs.foldl (fun acc kv => acc.updateKV kv.1 kv.2) t
  (mkRecord t1).map (fun r => (t1, r))

/-! ### The paste-side scanner (socket.py lines 212-232) -/

/-- A line opens a socket block when its stripped content starts with
`Begin Object Class=/Script/Engine.SkeletalMeshSocket Name="SkeletalMeshSocket_`
(socket.py line 221). -/
def isBeginLine (l : List Char) : Bool := beginNameMarker.isPrefixOf (trimL l)

/-- A line closes a block when its stripped content starts with
`End Object` (socket.py line 227). -/
def isEndLine (l : List Char) : Bool := endMarker.isPrefixOf (trimL l)

/-- The inner `while` loop (socket.py lines 223-231): walk the lines
after a begin line, collecting `key = value.strip('"').strip('()')`
pairs, until a line starting with `End Object`.  `none` models the
`IndexError` when the list of lines runs out and the `ValueError` when a
line has no `'='`. -/
def scanBlock : List (List Char) → Option (List (String × String))
  | [] => none
  | l :: rest =>
    if isEndLine l then some []
    else
      match splitFirstEq (trimL l) with
      | none => none
      | some kv =>
        match scanBlock rest with
        | none => none
        | some kvs =>
          some ((kv.1.asString, (stripChars ['(', ')'] (stripChars ['"'] kv.2)).asString) :: kvs)

/-- The outer loop over all begin-line indices (socket.py line 221):
every line whose stripped content matches the begin prefix opens a block
scanned from the following line, regardless of block nesting. -/
def scanBlocks : List (List Char) → Option (List (List (String × String)))
  | [] => some []
  | l :: rest =>
    if isBeginLine l then
      match scanBlock rest with
      | none => none
      | some kvs =>
        match scanBlocks rest with
        | none => none
        | some more => some (kvs :: more)
    else scanBlocks rest

/-- `socket_objects.append(SocketObject(**socket_dict))` over all scanned
blocks in order, threading the shared `_temp_dict` state. -/
def buildRecords (t : TempDict) : List (List (String × String)) →
    Option (TempDict × List SocketRecord)
  | [] => some (t, [])
  | kvs :: rest =>
    match socketObjectInit t kvs with
    | none => none
    | some tr =>
      match buildRecords tr.1 rest with
      | none => none
      | some res => some (res.1, tr.2 :: res.2)

/-- The clipboard validity pre-check (socket.py line 217):
`clipboard and (beginMarker in clipboard) and ('End Object' in clipboard)`. -/
def precheck (s : String) : Bool :=
  (s != "") && containsSub beginMarker s.toList && containsSub endMarker s.toList

/-- Python `str.splitlines()` for `\n`-separated text. -/
def splitLines (s : String) : List (List Char) := s.toList.splitOn '\n'

/-- The parsing phase of `OP_PasteSocket.execute` (socket.py lines
212-232): pre-check, then scan every block and construct the
`SocketObject`s.  Takes and returns the shared `_temp_dict` state. -/
def pasteParse (t : TempDict) (s : String) : Option (TempDict × List SocketRecord) :=
  if precheck s then (scanBlocks (splitLines s)).bind (fun blocks => buildRecords t blocks)
  else some (t, [])

/-! ### The scene-graph side of paste (socket.py lines 234-261) -/

/-- Parent type of a scene object. -/
inductive ParentType
  | BONE
  | OBJECT
deriving DecidableEq, Repr

/-- Scene object type (as far as this module distinguishes them). -/
inductive ObjType
  | EMPTY
  | ARMATURE
  | MESH
deriving DecidableEq, Repr

/-- The target armature as the paste/copy operators see it: its name,
the names of its pose bones (`active_object.pose.bones`), and its own
object scale (`active_object.scale`). -/
structure Armature where
  name : String
  bones : List String
  scale : ℚ × ℚ × ℚ
deriving DecidableEq, Repr

/-- A socket object created by `OP_PasteSocket.execute` (socket.py lines
245-259): the fields assigned to the new empty.  `relLocation` is the
bone-relative translation applied through `socket_matrix_world` (line
243) and `relRotationDeg` the Euler angles applied there, recorded in
degrees in (Roll, Pitch, Yaw) order — i.e. the XYZ components of the
applied `Euler(...)` before `math.radians`.  `bpy.data.objects.new`
with `object_data=None` yields an `EMPTY`. -/
structure CreatedSocket where
  name : String
  objType : ObjType
  is_socket : Bool
  show_name : Bool
  parent : String
  parent_type : ParentType
  parent_bone : String
  relLocation : ℚ × ℚ × ℚ
  relRotationDeg : ℚ × ℚ × ℚ
  scale : ℚ × ℚ × ℚ
  collection : String
deriving DecidableEq, Repr

/-- Look up three components of a compound dict; `none` models the
`KeyError` when one is absent. -/
def compQ3 (d : List (String × ℚ)) (k1 k2 k3 : String) : Option (ℚ × ℚ × ℚ) :=
  match lookupQ d k1, lookupQ d k2, lookupQ d k3 with
  | some a, some b, some c => some (a, b, c)
  | _, _, _ => none

/-- Creation of one socket object from a resolved record (socket.py
lines 243-259): reads `RelativeLocation[X/Y/Z]`,
`RelativeRotation[Roll/Pitch/Yaw]` and `RelativeScale[X/Y/Z]`, and sets
`scale = RelativeScale * (active_object.scale / 0.01)` per axis
(lines 249-251, `0.01` modelled as the exact `1/100`). -/
def createSocket (arm : Armature) (r : SocketRecord) : Option CreatedSocket :=
  match compQ3 r.relLocation "X" "Y" "Z", compQ3 r.relRotation "Roll" "Pitch" "Yaw",
      compQ3 r.relScale "X" "Y" "Z" with
  | some lv, some rv, some sv =>
    some
      { name := r.socketName
        objType := ObjType.EMPTY
        is_socket := true
        show_name := true
        parent := arm.name
        parent_type := ParentType.BONE
        parent_bone := r.boneName
        relLocation := lv
        relRotationDeg := rv
        scale := (sv.1 * (arm.scale.1 / (1 / 100)), sv.2.1 * (arm.scale.2.1 / (1 / 100)),
          sv.2.2 * (arm.scale.2.2 / (1 / 100)))
        collection := "UE4Socket" }
  | _, _, _ => none

/-- The resolve-and-create loop (socket.py lines 240-261): a record
whose `BoneName` has no pose bone on the armature is skipped
(`pose.bones.get` returns `None`); otherwise a socket object is created
and counted. -/
def createSockets (arm : Armature) : List SocketRecord → Option (List CreatedSocket)
  | [] => some []
  | r :: rest =>
    if r.boneName ∈ arm.bones then
      match createSocket arm r with
      | none => none
      | some c =>
        match createSockets arm rest with
        | none => none
        | some more => some (c :: more)
    else createSockets arm rest

/-- The `UE4Socket` collection lookup-or-create (socket.py lines
234-238, same pattern at lines 84-88): the scene's collection list is
returned unchanged when `UE4Socket` already exists, else with
`UE4Socket` linked. -/
def ensureCollection (cols : List String) : List String :=
  if "UE4Socket" ∈ cols then cols else cols ++ ["UE4Socket"]

/-- `OP_PasteSocket.execute` (socket.py lines 212-265) end to end:
pre-check, scan, construct records (threading the shared `_temp_dict`),
ensure the collection, resolve bones and create socket objects.
Returns the new `_temp_dict` state, the scene collections and the
created sockets (whose count is the reported `num_socket_pasted`);
`none` models an uncaught exception. -/
def pasteExecute (t : TempDict) (arm : Armature) (cols : List String) (s : String) :
    Option (TempDict × List String × List CreatedSocket) :=
  if precheck s then
    (scanBlocks (splitLines s)).bind (fun blocks =>
      (buildRecords t blocks).bind (fun tr =>
        (createSockets arm tr.2).map (fun created => (tr.1, ensureCollection cols, created))))
  else some (t, cols, [])

/-! ### The copy side (socket.py lines 111-161) -/

/-- A child object of the armature as `OP_CopySocket.execute` sees it.
The decomposed bone-relative transform
`((matrix_world @ pose_bone.matrix).inverted() @ socket.matrix_world).decompose()`
(line 133) is host-supplied data: `loc` is its translation, `rotDeg`
its XYZ Euler angles measured in degrees (so that `math.degrees` of the
host's radian components is the identity on this data), `scale` its
scale. -/
structure SocketObj where
  name : String
  objType : ObjType
  is_socket : Bool
  parent_type : ParentType
  parent_bone : String
  loc : ℚ × ℚ × ℚ
  rotDeg : ℚ × ℚ × ℚ
  scale : ℚ × ℚ × ℚ
deriving DecidableEq, Repr

/-- The socket-selection filter shared conceptually by copy (line 124)
applied to the four object fields it reads. -/
def copyFilterFields (ty : ObjType) (isS : Bool) (pt : ParentType) (pb : String) : Bool :=
  ty = ObjType.EMPTY && isS && pt = ParentType.BONE && pb != ""

/-- The child filter of `OP_CopySocket.execute` (socket.py line 124):
`obj.type == 'EMPTY' and obj.is_socket and obj.parent_type == 'BONE' and obj.parent_bone`. -/
def socketFilter (o : SocketObj) : Bool :=
  copyFilterFields o.objType o.is_socket o.parent_type o.parent_bone

/-- Whether a pasted socket object would be selected by the copy filter. -/
def CreatedSocket.passesCopyFilter (c : CreatedSocket) : Bool :=
  copyFilterFields c.objType c.is_socket c.parent_type c.parent_bone

/-- Model of Python's rendering of a float value into the format string:
rationals with denominator 1 print as the integer numerator. -/
def renderQ (q : ℚ) : String :=
  if q.den = 1 then toString q.num else toString q.num ++ "/" ++ toString q.den

/-- The clipboard header (socket.py line 126):
`'SocketCopyPasteBuffer\n\nNumSockets={}\n\n'`. -/
def headerString (n : ℕ) : String :=
  "SocketCopyPasteBuffer\n\nNumSockets=" ++ toString n ++ "\n\n"

/-- One exported block (socket.py line 136) for the socket at the given
enumerate index: location Y negated, engine Pitch/Yaw the negated tool
Euler Y/Z in degrees, Roll the tool Euler X in degrees, scale divided
by 100. -/
def blockString (index : ℕ) (o : SocketObj) : String :=
  "IsOnSkeleton=1\nBegin Object Class=/Script/Engine.SkeletalMeshSocket Name=\"SkeletalMeshSocket_"
    ++ toString index ++ "\"\nSocketName=\"" ++ o.name ++ "\"\nBoneName=\"" ++ o.parent_bone
    ++ "\"\nRelativeLocation=(X=" ++ renderQ o.loc.1 ++ ",Y=" ++ renderQ (o.loc.2.1 * -1)
    ++ ",Z=" ++ renderQ o.loc.2.2 ++ ")\nRelativeRotation=(Pitch=" ++ renderQ (o.rotDeg.2.1 * -1)
    ++ ",Yaw=" ++ renderQ (o.rotDeg.2.2 * -1) ++ ",Roll=" ++ renderQ o.rotDeg.1
    ++ ")\nRelativeScale=(X=" ++ renderQ (o.scale.1 / 100) ++ ",Y=" ++ renderQ (o.scale.2.1 / 100)
    ++ ",Z=" ++ renderQ (o.scale.2.2 / 100) ++ ")\nEnd Object\n\n"

/-- The export loop body (socket.py lines 128-155): `enumerate` over the
filtered sockets; a socket whose `parent_bone` resolves to no pose bone
contributes nothing but still consumes its index. -/
def copyBody (arm : Armature) : ℕ → List SocketObj → String
  | _, [] => ""
  | i, o :: rest =>
    (if o.parent_bone ∈ arm.bones then blockString i o else "") ++ copyBody arm (i + 1) rest

/-- `OP_CopySocket.execute` (socket.py lines 121-157): filter the
armature's children, emit the header with the count of ALL filtered
sockets, then the per-socket blocks. -/
def copyExecute (arm : Armature) (children : List SocketObj) : String :=
  let socketBoneObjects := children.filter socketFilter
  headerString socketBoneObjects.length ++ copyBody arm 0 socketBoneObjects

/-! ### The numeric axis/unit conversions over ℝ (socket.py lines
128-155 export side, lines 184-194 and 240-261 import side)

These model the arithmetic applied to the decomposed transform
components, with Python floats read as exact reals. -/

/-- A 3-vector of reals (a decomposed transform component). -/
structure Vec3 where
  x : ℝ
  y : ℝ
  z : ℝ

/-- An engine rotation triple (Pitch, Yaw, Roll), in degrees. -/
structure EngRot where
  pitch : ℝ
  yaw : ℝ
  roll : ℝ

/-- `math.degrees`. -/
noncomputable def degreesR (x : ℝ) : ℝ := x * 180 / Real.pi

/-- `math.radians`. -/
noncomputable def radiansR (x : ℝ) : ℝ := x * Real.pi / 180

/-- Export-side location conversion (socket.py lines 140-144):
`(x, y * -1, z)`. -/
def exportLocation (l : Vec3) : Vec3 := ⟨l.x, l.y * -1, l.z⟩

/-- Export-side rotation conversion (socket.py lines 145-149):
`Pitch = degrees(y * -1)`, `Yaw = degrees(z * -1)`, `Roll = degrees(x)`
from the XYZ Euler of the decomposed bone-relative transform. -/
noncomputable def exportRotation (r : Vec3) : EngRot :=
  ⟨degreesR (r.y * -1), degreesR (r.z * -1), degreesR r.x⟩

/-- Export-side scale conversion (socket.py lines 150-154): each
component divided by 100. -/
noncomputable def exportScale (s : Vec3) : Vec3 := ⟨s.x / 100, s.y / 100, s.z / 100⟩

/-- Import-side location fix-up (socket.py line 191):
`RelativeLocation['Y'] *= -1`. -/
def parseNegLocation (l : Vec3) : Vec3 := ⟨l.x, l.y * -1, l.z⟩

/-- Import-side rotation fix-up (socket.py lines 193-194):
`Pitch *= -1`, `Yaw *= -1`, Roll unchanged. -/
def parseNegRotation (e : EngRot) : EngRot := ⟨e.pitch * -1, e.yaw * -1, e.roll⟩

/-- The tool-space Euler applied at creation (socket.py line 243):
`Euler((radians(Roll), radians(Pitch), radians(Yaw)), 'XYZ')` from the
record's (already fixed-up) rotation fields. -/
noncomputable def appliedEuler (e : EngRot) : Vec3 :=
  ⟨radiansR e.roll, radiansR e.pitch, radiansR e.yaw⟩

/-- One axis of the caller-side scale application (socket.py lines
249-251): `RelativeScale * (active_object.scale / 0.01)`. -/
noncomputable def appliedScaleComp (s a : ℝ) : ℝ := s * (a / 0.01)

/-- The caller-side scale application on all three axes. -/
noncomputable def appliedScaleV (s a : Vec3) : Vec3 :=
  ⟨appliedScaleComp s.x a.x, appliedScaleComp s.y a.y, appliedScaleComp s.z a.z⟩

/-- The real-valued Euler the creation step applies for a parsed record
(socket.py line 243), from the record's rotation dict. -/
noncomputable def recordAppliedEuler (rec : SocketRecord) : Option (ℝ × ℝ × ℝ) :=
  match lookupQ rec.relRotation "Roll", lookupQ rec.relRotation "Pitch",
      lookupQ rec.relRotation "Yaw" with
  | some roll, some pitch, some yaw =>
    some (radiansR (roll : ℝ), radiansR (pitch : ℝ), radiansR (yaw : ℝ))
  | _, _, _ => none

/-! ### The attach operator (socket.py lines 8-44) -/

/-- The scene context `OP_AttachObject.poll` reads: objects are
identified by numbers; `parent` is the scene parent pointer, `attachTo`
the per-object `attach_to` property, `active` the active object. -/
structure AttachCtx where
  parent : ℕ → Option ℕ
  attachTo : ℕ → Option ℕ
  active : Option ℕ

/-- `OP_AttachObject.poll` (socket.py lines 19-21):
`active_object is not None and active_object.attach_to is not None and
active_object.attach_to.parent is not active_object`. -/
def attachPoll (ctx : AttachCtx) : Bool :=
  match ctx.active with
  | none => false
  | some a =>
    match ctx.attachTo a with
    | none => false
    | some tgt => decide (ctx.parent tgt ≠ some a)

/-- The chain of scene parents above an object, up to the given depth
(enough fuel makes it the full ancestor chain). -/
def ancestorChain (ctx : AttachCtx) : ℕ → ℕ → List ℕ
  | 0, _ => []
  | fuel + 1, o =>
    match ctx.parent o with
    | none => []
    | some p => p :: ancestorChain ctx fuel p

/-! ### Rat-free views and concrete fixtures

`SocketMeta` projects away the ℚ-valued transform fields of a created
socket; the object-graph invariants of the paste operator are stated on
this view. -/

/-- The object-graph data of a created socket (everything but the
numeric transform). -/
structure SocketMeta where
  name : String
  objType : ObjType
  is_socket : Bool
  show_name : Bool
  parent : String
  parent_type : ParentType
  parent_bone : String
  collection : String
deriving DecidableEq, Repr

/-- Project a created socket to its object-graph data. -/
def CreatedSocket.meta (c : CreatedSocket) : SocketMeta :=
  ⟨c.name, c.objType, c.is_socket, c.show_name, c.parent, c.parent_type, c.parent_bone,
    c.collection⟩

/-- A fixed armature used by the concrete witnesses: one pose bone
`b1`, unit object scale. -/
def armA : Armature := { name := "Armature", bones := ["b1"], scale := (1, 1, 1) }

/-- A clipboard string that passes the substring pre-check but whose
begin line is followed by a blank line: `str.split('=', 1)` on the blank
line raises `ValueError` in the Python code. -/
def c4Input : String :=
  "Begin Object Class=/Script/Engine.SkeletalMeshSocket Name=\"SkeletalMeshSocket_0\"\n\nEnd Object"

/-- Two socket blocks; the first sets `SocketName="A"`, the second has
no `SocketName` key at all. -/
def c5Input : String :=
  "Begin Object Class=/Script/Engine.SkeletalMeshSocket Name=\"SkeletalMeshSocket_0\"\nSocketName=\"A\"\nBoneName=\"b1\"\nEnd Object\nBegin Object Class=/Script/Engine.SkeletalMeshSocket Name=\"SkeletalMeshSocket_1\"\nBoneName=\"b2\"\nEnd Object"

/-- Two fully-specified socket blocks: the first on the existing bone
`b1`, the second on a bone `ghost` absent from `armA`. -/
def c8Input : String :=
  "Begin Object Class=/Script/Engine.SkeletalMeshSocket Name=\"SkeletalMeshSocket_0\"\nSocketName=\"S1\"\nBoneName=\"b1\"\nRelativeLocation=(X=1,Y=2,Z=3)\nRelativeRotation=(Pitch=45,Yaw=60,Roll=30)\nRelativeScale=(X=1,Y=1,Z=1)\nEnd Object\nBegin Object Class=/Script/Engine.SkeletalMeshSocket Name=\"SkeletalMeshSocket_1\"\nSocketName=\"S2\"\nBoneName=\"ghost\"\nRelativeLocation=(X=1,Y=2,Z=3)\nRelativeRotation=(Pitch=45,Yaw=60,Roll=30)\nRelativeScale=(X=1,Y=1,Z=1)\nEnd Object"

/-- The `_temp_dict` state after parsing `c8Input` (the second block's
field strings). -/
def c8Temp : TempDict :=
  { socketName := "S2", boneName := "ghost", relLocation := "X=1,Y=2,Z=3",
    relRotation := "Pitch=45,Yaw=60,Roll=30", relScale := "X=1,Y=1,Z=1" }

/-- The first record parsed from `c8Input`. -/
def c8Rec1 : SocketRecord :=
  { socketName := "S1", boneName := "b1",
    relLocation := [("X", 1), ("Y", -2), ("Z", 3)],
    relRotation := [("Pitch", -45), ("Yaw", -60), ("Roll", 30)],
    relScale := [("X", 1), ("Y", 1), ("Z", 1)] }

/-- The second record parsed from `c8Input` (bone unresolvable on `armA`). -/
def c8Rec2 : SocketRecord :=
  { socketName := "S2", boneName := "ghost",
    relLocation := [("X", 1), ("Y", -2), ("Z", 3)],
    relRotation := [("Pitch", -45), ("Yaw", -60), ("Roll", 30)],
    relScale := [("X", 1), ("Y", 1), ("Z", 1)] }

/-- The object-graph data of the one socket `c8Input` creates on `armA`. -/
def c8Meta : SocketMeta :=
  { name := "S1", objType := ObjType.EMPTY, is_socket := true, show_name := true,
    parent := "Armature", parent_type := ParentType.BONE, parent_bone := "b1",
    collection := "UE4Socket" }

/-- A `_temp_dict` state carrying the engine rotation
(Roll=30, Pitch=45, Yaw=60) degrees. -/
def rot30Dict : TempDict :=
  { socketName := "Socket", boneName := "Bone", relLocation := "X=0,Y=0,Z=0",
    relRotation := "Pitch=45,Yaw=60,Roll=30", relScale := "X=1,Y=1,Z=1" }

/-- A socket child whose `parent_bone` names no pose bone of `armA`. -/
def ghostSocket : SocketObj :=
  { name := "S", objType := ObjType.EMPTY, is_socket := true, parent_type := ParentType.BONE,
    parent_bone := "Ghost", loc := (0, 0, 0), rotDeg := (0, 0, 0), scale := (1, 1, 1) }

/-- A socket child on the existing bone `b1` of `armA`. -/
def goodSocket : SocketObj :=
  { name := "S", objType := ObjType.EMPTY, is_socket := true, parent_type := ParentType.BONE,
    parent_bone := "b1", loc := (1, 2, 3), rotDeg := (10, 20, 30), scale := (100, 200, 300) }

/-- A scene in which the attach target (object 2) is a grandchild of
the active object (object 0): object 2's parent is 1, whose parent is 0,
and object 0's `attach_to` designates object 2. -/
def c9Ctx : AttachCtx :=
  { parent := fun n => if n = 2 then some 1 else if n = 1 then some 0 else none
    attachTo := fun n => if n = 0 then some 2 else none
    active := some 0 }

/-- Concatenation of a list of strings (used to state the exact shape
of the copy output: header followed by the per-socket blocks). -/
def joinStr : List String → String
  | [] => ""
  | s :: rest => s ++ joinStr rest

set_option maxRecDepth 8000

/-! ## Helper lemmas -/

theorem lookupQ_upsert_self (d : List (String × ℚ)) (k : String) (v : ℚ) :
    lookupQ (upsert k v d) k = some v := by
  induction d with
  | nil => simp [upsert, lookupQ]
  | cons e rest ih =>
    by_cases h : e.1 = k
    · simp [upsert, h, lookupQ]
    · simp [upsert, h, lookupQ, ih]

theorem lookupQ_upsert_ne (d : List (String × ℚ)) (k k2 : String) (v : ℚ) (h : k ≠ k2) :
    lookupQ (upsert k v d) k2 = lookupQ d k2 := by
  induction d with
  | nil => simp [upsert, lookupQ, h]
  | cons e rest ih =>
    by_cases he : e.1 = k
    · simp [upsert, he, lookupQ, h]
    · simp only [upsert, if_neg he, lookupQ]
      by_cases he2 : e.1 = k2
      · simp [he2]
      · simp [he2, ih]

theorem negKey_of_lookup (d : List (String × ℚ)) (k : String) (v : ℚ)
    (h : lookupQ d k = some v) : negKey k d = some (upsert k (-v) d) := by
  simp [negKey, h]

/-- Characterization of `mkRecord` when the three compounds parse and
the three negated components are present. -/
theorem mkRecord_eq (t : TempDict) (loc0 rot0 sca0 : List (String × ℚ)) (ly p yv : ℚ)
    (hl : serializeCompound t.relLocation = some loc0)
    (hr : serializeCompound t.relRotation = some rot0)
    (hs : serializeCompound t.relScale = some sca0)
    (hy : lookupQ loc0 "Y" = some ly)
    (hp : lookupQ rot0 "Pitch" = some p)
    (hyaw : lookupQ rot0 "Yaw" = some yv) :
    mkRecord t = some ⟨t.socketName, t.boneName, upsert "Y" (-ly) loc0,
      upsert "Yaw" (-yv) (upsert "Pitch" (-p) rot0), sca0⟩ := by
  have h3 : lookupQ (upsert "Pitch" (-p) rot0) "Yaw" = some yv := by
    rw [lookupQ_upsert_ne _ _ _ _ (by decide)]; exact hyaw
  simp [mkRecord, hl, hr, hs, negKey_of_lookup _ _ _ hy, negKey_of_lookup _ _ _ hp,
    negKey_of_lookup _ _ _ h3]

/-! ## Claims C4, C5, C7, C9 -/

/-- C4 counterexample: the claim states that the paste operation runs to
completion on every clipboard string, in particular on strings that pass
the substring pre-check but have a blank line after the Begin line.  On
`c4Input` the pre-check passes, yet the scan's `split('=', 1)` unpacking
raises `ValueError` on the blank line (modelled by `none`): paste does
not run to completion. -/
theorem paste_malformed_block_faults :
    pasteExecute initTempDict armA [] c4Input = none ∧ precheck c4Input = true := by
  decide

/-- C4 (amended): for every clipboard string that fails the substring
pre-check, the paste operation runs to completion (treated as nothing to
import); completion is not guaranteed for strings that pass the
pre-check with malformed block interiors. -/
theorem paste_precheck_fail_completes (t : TempDict) (arm : Armature) (cols : List String)
    (s : String) (h : precheck s = false) : (pasteExecute t arm cols s).isSome = true := by
  simp [pasteExecute, h]

theorem paste_precheck_fail_completes_witness :
    precheck "garbage" = false ∧ (pasteExecute initTempDict armA [] "garbage").isSome = true :=
  ⟨by decide, paste_precheck_fail_completes initTempDict armA [] "garbage" (by decide)⟩

/-- C5: the claim states that a key absent from a block takes its
documented default independently of other blocks.  In the code
`_temp_dict` is a shared class-level dict mutated by every
construction, so on `c5Input` the second block (which has no
`SocketName` key) receives the first block's `"A"` instead of the
default `"Socket"`: the defaults are not applied independently. -/
theorem paste_shared_default_leak :
    (pasteParse initTempDict c5Input).map (fun res => res.2.map SocketRecord.socketName) =
        some ["A", "A"] ∧
      ("A" : String) ≠ "Socket" := by
  decide

/-- C7: every input string that does not contain both literal substrings
`Begin Object Class=/Script/Engine.SkeletalMeshSocket` and `End Object`
produces zero socket records and creates no scene objects: a no-op, not
an error. -/
theorem paste_precheck_noop (s : String) (t : TempDict) (arm : Armature) (cols : List String)
    (h : ¬ (containsSub beginMarker s.toList = true ∧ containsSub endMarker s.toList = true)) :
    pasteParse t s = some (t, []) ∧ pasteExecute t arm cols s = some (t, cols, []) := by
  have hb : precheck s = false := by
    cases h1 : containsSub beginMarker s.data with
    | false => simp [precheck, String.toList, h1]
    | true =>
      cases h2 : containsSub endMarker s.data with
      | false => simp [precheck, String.toList, h2]
      | true => exact absurd ⟨h1, h2⟩ h
  constructor
  · simp [pasteParse, hb]
  · simp [pasteExecute, hb]

theorem paste_precheck_noop_witness :
    ¬ (containsSub beginMarker "unrelated text".toList = true ∧
          containsSub endMarker "unrelated text".toList = true) ∧
      pasteParse initTempDict "unrelated text" = some (initTempDict, []) ∧
      pasteExecute initTempDict armA [] "unrelated text" = some (initTempDict, [], []) :=
  ⟨by decide, (paste_precheck_noop "unrelated text" initTempDict armA [] (by decide)).1,
    (paste_precheck_noop "unrelated text" initTempDict armA [] (by decide)).2⟩

/-- C9 counterexample: the claim states the availability check rejects a
cyclic attach whenever the target lies anywhere in the active object's
descendant parent chain.  In `c9Ctx` the target (object 2) is a
grandchild of the active object 0 (its parent chain is 1, 0), yet
`attachPoll` passes: the code inspects only the target's immediate
parent. -/
theorem attach_poll_deep_cycle_passes :
    attachPoll c9Ctx = true ∧ c9Ctx.active = some 0 ∧ c9Ctx.attachTo 0 = some 2 ∧
      0 ∈ ancestorChain c9Ctx 3 2 := by
  decide

/-- C9 (amended): the availability check passes exactly when there is an
active object with a designated attach target whose immediate parent is
not the active object; the absence of an active object, the absence of a
target, and a target directly parented to the active object are all
rejected at the availability-check stage (the check does not look deeper
into the parent chain). -/
theorem attach_poll_characterization (ctx : AttachCtx) :
    attachPoll ctx = true ↔
      ∃ a tgt, ctx.active = some a ∧ ctx.attachTo a = some tgt ∧ ctx.parent tgt ≠ some a := by
  constructor
  · intro h
    cases ha : ctx.active with
    | none => simp [attachPoll, ha] at h
    | some a =>
      cases ht : ctx.attachTo a with
      | none => simp [attachPoll, ha, ht] at h
      | some tgt =>
        simp [attachPoll, ha, ht] at h
        exact ⟨a, tgt, rfl, ht, h⟩
  · rintro ⟨a, tgt, ha, ht, hp⟩
    simp [attachPoll, ha, ht, hp]

theorem length_filter_add_length_filter_not (l : List α) (p : α → Bool) :
    (l.filter p).length + (l.filter (fun a => !(p a))).length = l.length := by
  induction l with
  | nil => simp
  | cons a rest ih =>
    cases h : p a <;> simp [List.filter_cons, h] <;> omega

theorem createSockets_length (arm : Armature) (recs : List SocketRecord) :
    ∀ created, createSockets arm recs = some created →
      created.length = (recs.filter (fun r => decide (r.boneName ∈ arm.bones))).length := by
  induction recs with
  | nil =>
    intro created h
    simp [createSockets] at h
    simp [← h]
  | cons r rest ih =>
    intro created h
    by_cases hb : r.boneName ∈ arm.bones
    · simp only [createSockets, if_pos hb] at h
      cases hc : createSocket arm r with
      | none => rw [hc] at h; simp at h
      | some c =>
        rw [hc] at h
        cases hcs : createSockets arm rest with
        | none => rw [hcs] at h; simp at h
        | some more =>
          rw [hcs] at h
          simp only [Option.some.injEq] at h
          subst h
          simp [List.filter_cons, hb, ih more hcs]
    · simp only [createSockets, if_neg hb] at h
      simp [List.filter_cons, hb, ih created h]

theorem createSocket_fields (arm : Armature) (r : SocketRecord) (c : CreatedSocket)
    (h : createSocket arm r = some c) :
    c.collection = "UE4Socket" ∧ c.objType = ObjType.EMPTY ∧ c.is_socket = true ∧
      c.show_name = true ∧ c.parent = arm.name ∧ c.parent_type = ParentType.BONE ∧
      c.parent_bone = r.boneName := by
  cases h1 : compQ3 r.relLocation "X" "Y" "Z" with
  | none => simp [createSocket, h1] at h
  | some lv =>
    cases h2 : compQ3 r.relRotation "Roll" "Pitch" "Yaw" with
    | none => simp [createSocket, h1, h2] at h
    | some rv =>
      cases h3 : compQ3 r.relScale "X" "Y" "Z" with
      | none => simp [createSocket, h1, h2, h3] at h
      | some sv =>
        simp only [createSocket, h1, h2, h3, Option.some.injEq] at h
        subst h
        exact ⟨rfl, rfl, rfl, rfl, rfl, rfl, rfl⟩

theorem createSockets_mem_fields (arm : Armature) (recs : List SocketRecord) :
    ∀ created, createSockets arm recs = some created →
      ∀ c ∈ created, c.collection = "UE4Socket" ∧ c.objType = ObjType.EMPTY ∧
        c.is_socket = true ∧ c.show_name = true ∧ c.parent = arm.name ∧
        c.parent_type = ParentType.BONE ∧ c.parent_bone ∈ arm.bones := by
  induction recs with
  | nil =>
    intro created h
    simp [createSockets] at h
    subst h
    simp
  | cons r rest ih =>
    intro created h
    by_cases hb : r.boneName ∈ arm.bones
    · simp only [createSockets, if_pos hb] at h
      cases hc : createSocket arm r with
      | none => rw [hc] at h; simp at h
      | some c =>
        rw [hc] at h
        cases hcs : createSockets arm rest with
        | none => rw [hcs] at h; simp at h
        | some more =>
          rw [hcs] at h
          simp only [Option.some.injEq] at h
          subst h
          intro c2 hc2
          rcases List.mem_cons.mp hc2 with h1 | h1
          · subst h1
            obtain ⟨f1, f2, f3, f4, f5, f6, f7⟩ := createSocket_fields arm r c2 hc
            exact ⟨f1, f2, f3, f4, f5, f6, f7 ▸ hb⟩
          · exact ih more hcs c2 h1
    · simp only [createSockets, if_neg hb] at h
      exact ih created h

theorem mem_ensureCollection (cols : List String) : "UE4Socket" ∈ ensureCollection cols := by
  unfold ensureCollection
  by_cases h : "UE4Socket" ∈ cols
  · simp [h]
  · simp [h]

theorem copyBody_join (arm : Armature) (l : List SocketObj) :
    ∀ i, (∀ o ∈ l, o.parent_bone ∈ arm.bones) →
      copyBody arm i l = joinStr (l.mapIdx (fun j o => blockString (i + j) o)) := by
  induction l with
  | nil => intro i _; simp [copyBody, joinStr]
  | cons o rest ih =>
    intro i h
    have ho : o.parent_bone ∈ arm.bones := h o (List.mem_cons_self o rest)
    have hrest : ∀ o2 ∈ rest, o2.parent_bone ∈ arm.bones :=
      fun o2 h2 => h o2 (List.mem_cons_of_mem o h2)
    simp only [copyBody, if_pos ho, List.mapIdx_cons, joinStr]
    rw [ih (i + 1) hrest]
    have he : (fun j o2 => blockString (i + 1 + j) o2) =
        (fun j o2 => blockString (i + (j + 1)) o2) := by
      funext j o2
      congr 1
      omega
    rw [he]
    congr 1

/-! ## Claims C6, C8, C10 -/

/-- C6 counterexample: the claim states the copy output is exactly the
header followed by one body block per selected socket with sequential
indices.  With the single selected socket `ghostSocket`, whose
`parent_bone` names no pose bone of `armA`, the output is the bare
header with `NumSockets=1` and no body block at all. -/
theorem copy_unresolved_bone_drops_block :
    (([ghostSocket] : List SocketObj).filter socketFilter).length = 1 ∧
      copyExecute armA [ghostSocket] = headerString 1 ∧
      copyExecute armA [ghostSocket] ≠
        headerString (([ghostSocket] : List SocketObj).filter socketFilter).length ++
          joinStr ((([ghostSocket] : List SocketObj).filter socketFilter).mapIdx blockString) := by
  decide

/-- C6 (amended): provided every selected socket's `parent_bone`
resolves to a pose bone of the armature, the copy output is exactly the
two-line header (`SocketCopyPasteBuffer`, blank line, `NumSockets=N`)
followed by one body block per selected socket, blocks separated by a
blank line, with sequential 0-based `SkeletalMeshSocket_<index>` names;
with no sockets the output is the valid header with `NumSockets=0` and
no body blocks.  (A selected socket with an unresolvable bone yields no
block — its index is skipped — while still being counted in
`NumSockets`.) -/
theorem copy_output_structure (arm : Armature) (children : List SocketObj)
    (h : ∀ o ∈ children.filter socketFilter, o.parent_bone ∈ arm.bones) :
    copyExecute arm children =
        headerString (children.filter socketFilter).length ++
          joinStr ((children.filter socketFilter).mapIdx blockString) ∧
      copyExecute arm [] = headerString 0 := by
  constructor
  · simp only [copyExecute]
    rw [copyBody_join arm (children.filter socketFilter) 0 h]
    have he : (fun j o => blockString (0 + j) o) = blockString := by
      funext j o
      simp
    rw [he]
  · simp [copyExecute, copyBody, List.filter]

theorem copy_output_structure_witness :
    (∀ o ∈ ([goodSocket] : List SocketObj).filter socketFilter,
        o.parent_bone ∈ armA.bones) ∧
      copyExecute armA [goodSocket] =
        headerString (([goodSocket] : List SocketObj).filter socketFilter).length ++
          joinStr ((([goodSocket] : List SocketObj).filter socketFilter).mapIdx blockString) :=
  ⟨by decide, (copy_output_structure armA [goodSocket] (by decide)).1⟩

/-- C8: for a paste input that parses to records `recs` (one per valid
Begin/End block) and whose creation phase completes, the number of
created sockets is exactly the number of records minus the number of
records whose bone name has no pose bone on the target armature: each
unresolvable record is silently dropped. -/
theorem paste_bone_resolution_count (t t2 : TempDict) (arm : Armature) (s : String)
    (recs : List SocketRecord) (names : List String)
    (hp : pasteParse t s = some (t2, recs))
    (hc : (createSockets arm recs).map (fun cs => cs.map CreatedSocket.name) = some names) :
    names.length = recs.length -
      (recs.filter (fun r => decide (r.boneName ∉ arm.bones))).length := by
  cases hcs : createSockets arm recs with
  | none => rw [hcs] at hc; simp at hc
  | some created =>
    rw [hcs] at hc
    simp at hc
    subst hc
    have h1 := createSockets_length arm recs created hcs
    have h2 := length_filter_add_length_filter_not recs
      (fun r => decide (r.boneName ∈ arm.bones))
    have h3 : recs.filter (fun r => decide (r.boneName ∉ arm.bones)) =
        recs.filter (fun r => !(decide (r.boneName ∈ arm.bones))) := by
      simp only [decide_not]
    rw [h3]
    simp only [List.length_map]
    omega

theorem paste_bone_resolution_count_witness :
    pasteParse initTempDict c8Input = some (c8Temp, [c8Rec1, c8Rec2]) ∧
      (createSockets armA [c8Rec1, c8Rec2]).map (fun cs => cs.map CreatedSocket.name) =
        some ["S1"] ∧
      (["S1"] : List String).length = ([c8Rec1, c8Rec2] : List SocketRecord).length -
        (([c8Rec1, c8Rec2] : List SocketRecord).filter
          (fun r => decide (r.boneName ∉ armA.bones))).length :=
  ⟨by decide, by decide,
    paste_bone_resolution_count initTempDict c8Temp armA c8Input [c8Rec1, c8Rec2] ["S1"]
      (by decide) (by decide)⟩

/-- C10: every socket object created by a paste operation is linked into
the `UE4Socket` collection (present in the scene collections after the
operation), has `is_socket` set, is an `EMPTY` parented to the target
armature with `parent_type` `BONE` and `parent_bone` an existing pose
bone; hence (as long as the armature's bone names are non-empty) it
passes the filter the copy operation uses to select sockets. -/
theorem paste_created_sockets_invariant (t t2 : TempDict) (arm : Armature)
    (cols cols2 : List String) (s : String) (ms : List SocketMeta)
    (h : (pasteExecute t arm cols s).map
        (fun res => (res.1, res.2.1, res.2.2.map CreatedSocket.meta)) =
      some (t2, cols2, ms)) :
    ∀ m ∈ ms, m.collection = "UE4Socket" ∧ m.is_socket = true ∧ m.objType = ObjType.EMPTY ∧
      m.show_name = true ∧ m.parent = arm.name ∧ m.parent_type = ParentType.BONE ∧
      m.parent_bone ∈ arm.bones ∧ "UE4Socket" ∈ cols2 ∧
      ((∀ b ∈ arm.bones, b ≠ "") →
        copyFilterFields m.objType m.is_socket m.parent_type m.parent_bone = true) := by
  by_cases hpre : precheck s = true
  · simp only [pasteExecute, if_pos hpre, Option.map_eq_some', Option.bind_eq_some] at h
    obtain ⟨out, ⟨blocks, hsb, tr, hbr, created, hcs, hout⟩, hproj⟩ := h
    subst hout
    simp only [Prod.mk.injEq] at hproj
    obtain ⟨ht2, hcols2, hms⟩ := hproj
    intro m hm
    rw [← hms] at hm
    obtain ⟨c, hcmem, hcm⟩ := List.mem_map.mp hm
    obtain ⟨f1, f2, f3, f4, f5, f6, f7⟩ :=
      createSockets_mem_fields arm tr.2 created hcs c hcmem
    subst hcm
    refine ⟨f1, f3, f2, f4, f5, f6, f7, ?_, ?_⟩
    · rw [← hcols2]
      exact mem_ensureCollection cols
    · intro hb
      have hne : c.parent_bone ≠ "" := hb c.parent_bone f7
      simp [CreatedSocket.meta, copyFilterFields, f2, f3, f6, hne]
  · simp only [pasteExecute, if_neg hpre] at h
    simp only [Option.map_some', Option.some.injEq, Prod.mk.injEq] at h
    obtain ⟨ht2, hcols2, hms⟩ := h
    intro m hm
    rw [← hms] at hm
    simp at hm

theorem paste_created_sockets_invariant_witness :
    ((pasteExecute initTempDict armA [] c8Input).map
        (fun res => (res.1, res.2.1, res.2.2.map CreatedSocket.meta)) =
      some (c8Temp, ["UE4Socket"], [c8Meta])) ∧
    ∀ m ∈ ([c8Meta] : List SocketMeta), m.collection = "UE4Socket" ∧ m.is_socket = true ∧
      m.objType = ObjType.EMPTY ∧ m.show_name = true ∧ m.parent = armA.name ∧
      m.parent_type = ParentType.BONE ∧ m.parent_bone ∈ armA.bones ∧
      "UE4Socket" ∈ ["UE4Socket"] ∧
      ((∀ b ∈ armA.bones, b ≠ "") →
        copyFilterFields m.objType m.is_socket m.parent_type m.parent_bone = true) :=
  ⟨by decide,
    paste_created_sockets_invariant initTempDict c8Temp armA [] ["UE4Socket"] c8Input
      [c8Meta] (by decide)⟩

/-! ## Claims C1, C2, C3: the numeric conversions -/

theorem radiansR_degreesR (x : ℝ) : radiansR (degreesR x) = x := by
  have hpi := Real.pi_ne_zero
  unfold radiansR degreesR
  field_simp

theorem radiansR_neg_degreesR_neg (x : ℝ) : radiansR (degreesR (x * -1) * -1) = x := by
  have hpi := Real.pi_ne_zero
  unfold radiansR degreesR
  field_simp

/-- C2: for every exported socket the text block receives location X
and Z unchanged and location Y negated; Pitch is the negated degree
measure of the tool Euler Y component, Yaw the negated degree measure of
the Z component, Roll the unchanged degree measure of the X component
(the Euler is taken in XYZ order by `to_euler('XYZ')`); and each scale
component is the tool scale component divided by 100. -/
theorem export_axis_conversion (l r s : Vec3) :
    (exportLocation l).x = l.x ∧ (exportLocation l).y = -l.y ∧ (exportLocation l).z = l.z ∧
      (exportRotation r).pitch = -(degreesR r.y) ∧ (exportRotation r).yaw = -(degreesR r.z) ∧
      (exportRotation r).roll = degreesR r.x ∧
      (exportScale s).x = s.x / 100 ∧ (exportScale s).y = s.y / 100 ∧
      (exportScale s).z = s.z / 100 := by
  refine ⟨rfl, ?_, rfl, ?_, ?_, rfl, rfl, rfl, rfl⟩
  · show l.y * -1 = -l.y
    ring
  · show degreesR (r.y * -1) = -(degreesR r.y)
    unfold degreesR
    ring
  · show degreesR (r.z * -1) = -(degreesR r.z)
    unfold degreesR
    ring

/-- C1: copy-then-paste round-trips the decomposed bone-relative
transform exactly (over exact reals, hence within floating-point
tolerance in the implementation): the parse-side Y negation undoes the
export-side one on the location, the applied Euler recovers the tool
rotation, and the scale — exported divided by 100 and multiplied back by
`armScale / 0.01` at paste time — is recovered when the armature scale
is 1, and for all scales only then. -/
theorem copy_paste_round_trip (loc rot sca armScale : Vec3) :
    (parseNegLocation (exportLocation loc)).x = loc.x ∧
      (parseNegLocation (exportLocation loc)).y = loc.y ∧
      (parseNegLocation (exportLocation loc)).z = loc.z ∧
      (appliedEuler (parseNegRotation (exportRotation rot))).x = rot.x ∧
      (appliedEuler (parseNegRotation (exportRotation rot))).y = rot.y ∧
      (appliedEuler (parseNegRotation (exportRotation rot))).z = rot.z ∧
      (armScale = ⟨1, 1, 1⟩ →
        (appliedScaleV (exportScale sca) armScale).x = sca.x ∧
          (appliedScaleV (exportScale sca) armScale).y = sca.y ∧
          (appliedScaleV (exportScale sca) armScale).z = sca.z) ∧
      ((∀ v : ℝ, appliedScaleComp (v / 100) armScale.x = v) ↔ armScale.x = 1) := by
  refine ⟨rfl, ?_, rfl, ?_, ?_, ?_, ?_, ?_, ?_⟩
  · show loc.y * -1 * -1 = loc.y
    ring
  · exact radiansR_degreesR rot.x
  · exact radiansR_neg_degreesR_neg rot.y
  · exact radiansR_neg_degreesR_neg rot.z
  · rintro rfl
    refine ⟨?_, ?_, ?_⟩ <;>
      · show _ / 100 * ((1 : ℝ) / 0.01) = _
        norm_num
  · intro hall
    have h1 := hall 100
    unfold appliedScaleComp at h1
    norm_num at h1
    linarith
  · intro h1 v
    unfold appliedScaleComp
    rw [h1]
    norm_num

theorem copy_paste_round_trip_witness :
    (parseNegLocation (exportLocation ⟨1, 2, 3⟩)).x = 1 ∧
      (parseNegLocation (exportLocation ⟨1, 2, 3⟩)).y = 2 ∧
      (parseNegLocation (exportLocation ⟨1, 2, 3⟩)).z = 3 ∧
      (appliedEuler (parseNegRotation (exportRotation ⟨4, 5, 6⟩))).x = 4 ∧
      (appliedEuler (parseNegRotation (exportRotation ⟨4, 5, 6⟩))).y = 5 ∧
      (appliedEuler (parseNegRotation (exportRotation ⟨4, 5, 6⟩))).z = 6 ∧
      (appliedScaleV (exportScale ⟨7, 8, 9⟩) ⟨1, 1, 1⟩).x = 7 ∧
      (appliedScaleV (exportScale ⟨7, 8, 9⟩) ⟨1, 1, 1⟩).y = 8 ∧
      (appliedScaleV (exportScale ⟨7, 8, 9⟩) ⟨1, 1, 1⟩).z = 9 := by
  have H := copy_paste_round_trip ⟨1, 2, 3⟩ ⟨4, 5, 6⟩ ⟨7, 8, 9⟩ ⟨1, 1, 1⟩
  obtain ⟨a1, a2, a3, a4, a5, a6, b, c⟩ := H
  obtain ⟨b1, b2, b3⟩ := b rfl
  exact ⟨a1, a2, a3, a4, a5, a6, b1, b2, b3⟩

/-- C3: for every parsed socket record (block fields in `t`, compound
dicts parsed with the needed components present) the parser negates
location Y and rotation Pitch and Yaw while leaving X, Z and Roll
unchanged, and the tool-space rotation applied at creation is the
XYZ-order Euler `(radians Roll, radians (-Pitch), radians (-Yaw))` of
the original engine values. -/
theorem parse_inverse_axis_conversion (t : TempDict) (loc0 rot0 sca0 : List (String × ℚ))
    (lx ly lz p yv r : ℚ)
    (hl : serializeCompound t.relLocation = some loc0)
    (hr : serializeCompound t.relRotation = some rot0)
    (hs : serializeCompound t.relScale = some sca0)
    (hx : lookupQ loc0 "X" = some lx) (hy : lookupQ loc0 "Y" = some ly)
    (hz : lookupQ loc0 "Z" = some lz)
    (hp : lookupQ rot0 "Pitch" = some p) (hyaw : lookupQ rot0 "Yaw" = some yv)
    (hroll : lookupQ rot0 "Roll" = some r) :
    mkRecord t = some ⟨t.socketName, t.boneName, upsert "Y" (-ly) loc0,
        upsert "Yaw" (-yv) (upsert "Pitch" (-p) rot0), sca0⟩ ∧
      lookupQ (upsert "Y" (-ly) loc0) "X" = some lx ∧
      lookupQ (upsert "Y" (-ly) loc0) "Y" = some (-ly) ∧
      lookupQ (upsert "Y" (-ly) loc0) "Z" = some lz ∧
      lookupQ (upsert "Yaw" (-yv) (upsert "Pitch" (-p) rot0)) "Pitch" = some (-p) ∧
      lookupQ (upsert "Yaw" (-yv) (upsert "Pitch" (-p) rot0)) "Yaw" = some (-yv) ∧
      lookupQ (upsert "Yaw" (-yv) (upsert "Pitch" (-p) rot0)) "Roll" = some r ∧
      recordAppliedEuler ⟨t.socketName, t.boneName, upsert "Y" (-ly) loc0,
          upsert "Yaw" (-yv) (upsert "Pitch" (-p) rot0), sca0⟩ =
        some (radiansR ((r : ℚ) : ℝ), radiansR (-((p : ℚ) : ℝ)), radiansR (-((yv : ℚ) : ℝ))) := by
  have e1 : lookupQ (upsert "Y" (-ly) loc0) "X" = some lx := by
    rw [lookupQ_upsert_ne _ _ _ _ (by decide)]
    exact hx
  have e2 : lookupQ (upsert "Y" (-ly) loc0) "Y" = some (-ly) := lookupQ_upsert_self loc0 "Y" (-ly)
  have e3 : lookupQ (upsert "Y" (-ly) loc0) "Z" = some lz := by
    rw [lookupQ_upsert_ne _ _ _ _ (by decide)]
    exact hz
  have e4 : lookupQ (upsert "Yaw" (-yv) (upsert "Pitch" (-p) rot0)) "Pitch" = some (-p) := by
    rw [lookupQ_upsert_ne _ _ _ _ (by decide)]
    exact lookupQ_upsert_self rot0 "Pitch" (-p)
  have e5 : lookupQ (upsert "Yaw" (-yv) (upsert "Pitch" (-p) rot0)) "Yaw" = some (-yv) :=
    lookupQ_upsert_self _ "Yaw" (-yv)
  have e6 : lookupQ (upsert "Yaw" (-yv) (upsert "Pitch" (-p) rot0)) "Roll" = some r := by
    rw [lookupQ_upsert_ne _ _ _ _ (by decide), lookupQ_upsert_ne _ _ _ _ (by decide)]
    exact hroll
  refine ⟨mkRecord_eq t loc0 rot0 sca0 ly p yv hl hr hs hy hp hyaw, e1, e2, e3, e4, e5, e6, ?_⟩
  simp [recordAppliedEuler, e4, e5, e6]

theorem parse_inverse_axis_conversion_witness :
    mkRecord rot30Dict = some ⟨"Socket", "Bone",
        upsert "Y" (-(0 : ℚ)) [("X", 0), ("Y", 0), ("Z", 0)],
        upsert "Yaw" (-(60 : ℚ)) (upsert "Pitch" (-(45 : ℚ))
          [("Pitch", 45), ("Yaw", 60), ("Roll", 30)]),
        [("X", 1), ("Y", 1), ("Z", 1)]⟩ ∧
      recordAppliedEuler ⟨"Socket", "Bone",
          upsert "Y" (-(0 : ℚ)) [("X", 0), ("Y", 0), ("Z", 0)],
          upsert "Yaw" (-(60 : ℚ)) (upsert "Pitch" (-(45 : ℚ))
            [("Pitch", 45), ("Yaw", 60), ("Roll", 30)]),
          [("X", 1), ("Y", 1), ("Z", 1)]⟩ =
        some (radiansR ((30 : ℚ) : ℝ), radiansR (-((45 : ℚ) : ℝ)), radiansR (-((60 : ℚ) : ℝ))) := by
  have H := parse_inverse_axis_conversion rot30Dict
    [("X", 0), ("Y", 0), ("Z", 0)] [("Pitch", 45), ("Yaw", 60), ("Roll", 30)]
    [("X", 1), ("Y", 1), ("Z", 1)] 0 0 0 45 60 30 (by decide) (by decide) (by decide)
    (by decide) (by decide) (by decide) (by decide) (by decide) (by decide)
  exact ⟨H.1, H.2.2.2.2.2.2.2⟩
